import Mathlib

set_option linter.unusedVariables false

/-! Verification of the patch-parsing and configuration-snapshot subsystems of the
vendored libgit2 sources of this repository, embedded shallowly in Lean:
`src/deps/libgit2/src/patch_parse.c` and `src/deps/libgit2/src/config_snapshot.c`.
Fallible C functions that return a negative code and set the thread error message
are modelled as `ParseResult`; C `int` arithmetic is modelled as `Int` with explicit
range checks against the 32-bit bounds, matching the overflow-checked helpers
`git__add_int_overflow` / `git__sub_int_overflow` used by the source. -/

/-- Result of a fallible parse step: `ok` with a value, or `err` carrying the
message passed to `git_parse_err` / `git_error_set`. -/
inductive ParseResult (α : Type) : Type where
  | ok (val : α) : ParseResult α
  | err (msg : String) : ParseResult α
  deriving DecidableEq, Repr

/-- Origin tag of a diff line, `GIT_DIFF_LINE_CONTEXT` (the character code of
a space, per the `git_diff_line_t` enumeration of include/git2/diff.h). -/
def GIT_DIFF_LINE_CONTEXT : Int := 32

/-- Origin tag `GIT_DIFF_LINE_ADDITION` (character code of the plus sign). -/
def GIT_DIFF_LINE_ADDITION : Int := 43

/-- Origin tag `GIT_DIFF_LINE_DELETION` (character code of the minus sign). -/
def GIT_DIFF_LINE_DELETION : Int := 45

/-- Origin tag `GIT_DIFF_LINE_CONTEXT_EOFNL` (character code of `=`). -/
def GIT_DIFF_LINE_CONTEXT_EOFNL : Int := 61

/-- Origin tag `GIT_DIFF_LINE_ADD_EOFNL` (character code of `>`). -/
def GIT_DIFF_LINE_ADD_EOFNL : Int := 62

/-- Origin tag `GIT_DIFF_LINE_DEL_EOFNL` (character code of `<`). -/
def GIT_DIFF_LINE_DEL_EOFNL : Int := 60

/-- `eof_for_origin` of patch_parse.c: maps the origin of the most recently
emitted line to the origin of a "no newline at end of file" pseudo-line. -/
def eof_for_origin (origin : Int) : Int :=
  if origin = GIT_DIFF_LINE_ADDITION then GIT_DIFF_LINE_ADD_EOFNL
  else if origin = GIT_DIFF_LINE_DELETION then GIT_DIFF_LINE_DEL_EOFNL
  else GIT_DIFF_LINE_CONTEXT_EOFNL

/-- Upper bound of the C `int` type (32 bits on libgit2's supported platforms). -/
def INT_MAX : Int := 2147483647

/-- Lower bound of the C `int` type (32 bits on libgit2's supported platforms). -/
def INT_MIN : Int := -2147483648

/-- `git__add_int_overflow`: addition over the C `int` type with explicit overflow
detection; `none` models the helper reporting overflow. -/
def git_add_int_overflow (a b : Int) : Option Int :=
  if a + b < INT_MIN ∨ a + b > INT_MAX then none else some (a + b)

/-- `git__sub_int_overflow`: subtraction over the C `int` type with explicit
overflow detection; `none` models the helper reporting overflow. -/
def git_sub_int_overflow (a b : Int) : Option Int :=
  if a - b < INT_MIN ∨ a - b > INT_MAX then none else some (a - b)

/-- Addition with overflow detection over signed 64-bit arithmetic, written from
the spec's words ("overflow signed 64-bit arithmetic") for comparison with the
code's `int`-width check. -/
def add_int64_overflow_spec (a b : Int) : Option Int :=
  if a + b < -(2 ^ 63) ∨ a + b > 2 ^ 63 - 1 then none else some (a + b)

/-- Subtraction with overflow detection over signed 64-bit arithmetic, written
from the spec's words for comparison with the code's `int`-width check. -/
def sub_int64_overflow_spec (a b : Int) : Option Int :=
  if a - b < -(2 ^ 63) ∨ a - b > 2 ^ 63 - 1 then none else some (a - b)

/-- The numeric fields of a hunk header `@@ -old_start,old_lines +new_start,new_lines @@`
(the `hunk.hunk` fields of patch_parse.c; C `int`s). -/
structure GitPatchHunk where
  old_start : Int
  old_lines : Int
  new_start : Int
  new_lines : Int
  deriving DecidableEq, Repr

/-- One emitted `git_diff_line`: content (the line minus its 1-byte leading
marker, except for EOFNL pseudo-lines which keep the whole line), origin tag,
and the two line numbers (−1 when not applicable). -/
structure DiffLine where
  content : List Char
  origin : Int
  old_lineno : Int
  new_lineno : Int
  deriving DecidableEq, Repr

/-- State returned by the hunk-body loop: emitted lines, the two remaining
counters, the last emitted origin, the unconsumed input lines and the cursor's
line number. -/
structure HunkLoopOut where
  lines : List DiffLine
  oldlines : Int
  newlines : Int
  last_origin : Int
  rest : List (List Char)
  line_num : Nat
  deriving DecidableEq, Repr

/-- Successful result of `parse_hunk_body`: the emitted lines, the unconsumed
input, the cursor's line number, and the non-fatal diagnostic recorded for a
synthetic last line that is missing its trailing newline. -/
structure HunkBodyOk where
  lines : List DiffLine
  rest : List (List Char)
  line_num : Nat
  diagnostic : Option String
  deriving DecidableEq, Repr

/-- The literal `@@ -` that begins a hunk header; the body loop stops when the
current line begins with it (`git_parse_ctx_contains`). -/
def hunkHeaderStart : List Char := ['@', '@', ' ', '-']

/-- Whether a line begins with the given literal (models `git_parse_ctx_contains`,
which compares the head of the current line). -/
def listStartsWith (l p : List Char) : Bool := l.take p.length = p

/-- The per-line running line-number computation of `parse_hunk_body`
(patch_parse.c lines 65–72): `old_lineno = old_start + old_lines - oldlines` and
`new_lineno = new_start + new_lines - newlines`, every addition and subtraction
going through the overflow-checked `int` helpers; `none` when any step overflows. -/
def compute_hunk_linenos (h : GitPatchHunk) (oldlines newlines : Int) : Option (Int × Int) :=
  match git_add_int_overflow h.old_start h.old_lines with
  | none => none
  | some t1 =>
    match git_sub_int_overflow t1 oldlines with
    | none => none
    | some old_lineno =>
      match git_add_int_overflow h.new_start h.new_lines with
      | none => none
      | some t2 =>
        match git_sub_int_overflow t2 newlines with
        | none => none
        | some new_lineno => some (old_lineno, new_lineno)

/-- The per-line loop of `parse_hunk_body`. The loop runs while input remains,
either remaining counter is nonzero and the current line does not begin a new
hunk header; each line's leading character selects the branch: context (`' '`)
consumes both counters, deletion (`'-'`) the old counter, addition (`'+'`) the
new counter, and a `'\'` line with the old counter exhausted emits an EOFNL
pseudo-line via `eof_for_origin` without consuming counters. The loop structure
and the default-branch error message are modelled from the spec where elided
from src; the line-number computation, the `'\'` case and the EOFNL mapping are
from patch_parse.c lines 54–97. -/
def parse_hunk_body_loop (h : GitPatchHunk) (oldlines newlines last_origin : Int)
    (acc : List DiffLine) (input : List (List Char)) (ln : Nat) : ParseResult HunkLoopOut :=
  match input with
  | [] => ParseResult.ok ⟨acc, oldlines, newlines, last_origin, [], ln⟩
  | line :: rest =>
    if oldlines = 0 ∧ newlines = 0 then
      ParseResult.ok ⟨acc, oldlines, newlines, last_origin, line :: rest, ln⟩
    else if listStartsWith line hunkHeaderStart then
      ParseResult.ok ⟨acc, oldlines, newlines, last_origin, line :: rest, ln⟩
    else
      match compute_hunk_linenos h oldlines newlines with
      | none => ParseResult.err ("unrepresentable line count at line " ++ toString ln)
      | some (old_lineno, new_lineno) =>
        match line.head? with
        | none => ParseResult.err ("invalid patch hunk at line " ++ toString ln)
        | some c =>
          if c = ' ' then
            parse_hunk_body_loop h (oldlines - 1) (newlines - 1) GIT_DIFF_LINE_CONTEXT
              (acc ++ [⟨line.drop 1, GIT_DIFF_LINE_CONTEXT, old_lineno, new_lineno⟩])
              rest (ln + 1)
          else if c = '-' then
            parse_hunk_body_loop h (oldlines - 1) newlines GIT_DIFF_LINE_DELETION
              (acc ++ [⟨line.drop 1, GIT_DIFF_LINE_DELETION, old_lineno, -1⟩])
              rest (ln + 1)
          else if c = '+' then
            parse_hunk_body_loop h oldlines (newlines - 1) GIT_DIFF_LINE_ADDITION
              (acc ++ [⟨line.drop 1, GIT_DIFF_LINE_ADDITION, -1, new_lineno⟩])
              rest (ln + 1)
          else if c = '\\' ∧ oldlines = 0 then
            parse_hunk_body_loop h oldlines newlines (eof_for_origin last_origin)
              (acc ++ [⟨line, eof_for_origin last_origin, -1, -1⟩])
              rest (ln + 1)
          else
            ParseResult.err ("invalid patch hunk at line " ++ toString ln)

/-- `parse_hunk_body`: runs the per-line loop starting from the header-declared
counters, fails if either counter is still nonzero when the loop stops, then
handles a trailing `"\ "` "no newline at end of file" line: its pseudo-line is
emitted with origin `eof_for_origin last_origin` and both line numbers −1, and
a marker line that itself lacks the trailing newline records the non-fatal
"last line has no trailing newline" diagnostic (patch_parse.c lines 98–115)
without aborting the parse. The expected-lines error message of the counter
check is modelled from the spec (elided from src). -/
def parse_hunk_body (h : GitPatchHunk) (input : List (List Char)) (ln : Nat) :
    ParseResult HunkBodyOk :=
  match parse_hunk_body_loop h h.old_lines h.new_lines 0 [] input ln with
  | ParseResult.err e => ParseResult.err e
  | ParseResult.ok st =>
    if ¬(st.oldlines = 0 ∧ st.newlines = 0) then
      ParseResult.err ("invalid patch hunk, expected " ++ toString h.old_lines ++
        " old lines and " ++ toString h.new_lines ++ " new lines")
    else
      match st.rest with
      | [] => ParseResult.ok ⟨st.lines, [], st.line_num, none⟩
      | line :: rest2 =>
        if line.take 2 = ['\\', ' '] then
          ParseResult.ok ⟨st.lines ++ [⟨line, eof_for_origin st.last_origin, -1, -1⟩],
            rest2, st.line_num + 1,
            if line.getLast? ≠ some '\n' then some "last line has no trailing newline"
            else none⟩
        else
          ParseResult.ok ⟨st.lines, line :: rest2, st.line_num, none⟩

/-- Whether an origin tag counts against the old side (context or deletion). -/
def isOldSideOrigin (o : Int) : Bool :=
  o == GIT_DIFF_LINE_CONTEXT || o == GIT_DIFF_LINE_DELETION

/-- Whether an origin tag counts against the new side (context or addition). -/
def isNewSideOrigin (o : Int) : Bool :=
  o == GIT_DIFF_LINE_CONTEXT || o == GIT_DIFF_LINE_ADDITION

/-- Number of emitted lines whose origin consumes the old side. -/
def countOldSide (ls : List DiffLine) : Int :=
  ((ls.filter (fun l => isOldSideOrigin l.origin)).length : Int)

/-- Number of emitted lines whose origin consumes the new side. -/
def countNewSide (ls : List DiffLine) : Int :=
  ((ls.filter (fun l => isNewSideOrigin l.origin)).length : Int)

/-- Delta status (`git_delta_t`), as far as the parser core distinguishes it. -/
inductive DeltaStatus : Type where
  | UNMODIFIED
  | ADDED
  | DELETED
  | MODIFIED
  | RENAMED
  | COPIED
  | TYPECHANGE
  deriving DecidableEq, Repr

/-- The per-file path state accumulated by the header parsers
(`git_patch_parsed` fields of patch_parse.c): the per-side paths recorded by the
`"--- "` / `"+++ "` handlers (`old_path` / `new_path`), the header-derived
fallback paths (`header_old_path` / `header_new_path`), the explicit rename/copy
paths, and the delta status. -/
structure PatchParsed where
  old_path : Option String
  new_path : Option String
  header_old_path : Option String
  header_new_path : Option String
  rename_old_path : Option String
  rename_new_path : Option String
  status : DeltaStatus
  deriving DecidableEq, Repr

/-- Modelled from the spec: C-style un-quoting of a quoted path
(`git_buf_unquote` is outside src); simplified to removing the surrounding
double quotes, failing when the closing quote is absent. -/
def git_buf_unquote (s : String) : ParseResult String :=
  if s.length ≥ 2 ∧ s.back = '"' then ParseResult.ok ((s.drop 1).dropRight 1)
  else ParseResult.err "invalid quoted line"

/-- `parse_header_path_buf` (patch_parse.c lines 13–22): un-quotes a path that
begins with a double quote and rejects an empty path, naming the cursor's
1-based line number. -/
def parse_header_path_buf (s : String) (line_num : Nat) : ParseResult String :=
  match (if s.length > 0 ∧ s.front = '"' then git_buf_unquote s else ParseResult.ok s) with
  | ParseResult.err e => ParseResult.err e
  | ParseResult.ok p =>
    if p.length = 0 then
      ParseResult.err ("patch contains empty path at line " ++ toString line_num)
    else ParseResult.ok p

/-- `parse_header_git_oldpath` (patch_parse.c lines 28–34): the `"--- "` handler
rejects a second old path for the same file section with the duplicate-old-path
error carrying the cursor's 1-based line number, otherwise records the parsed
path. -/
def parse_header_git_oldpath (p : PatchParsed) (s : String) (line_num : Nat) :
    ParseResult PatchParsed :=
  if p.old_path.isSome then
    ParseResult.err ("patch contains duplicate old path at line " ++ toString line_num)
  else
    match parse_header_path_buf s line_num with
    | ParseResult.err e => ParseResult.err e
    | ParseResult.ok path => ParseResult.ok { p with old_path := some path }

/-- `parse_header_git_newpath` (patch_parse.c lines 35–41): the `"+++ "` handler,
symmetric to the old-path handler, rejecting a duplicate new path. -/
def parse_header_git_newpath (p : PatchParsed) (s : String) (line_num : Nat) :
    ParseResult PatchParsed :=
  if p.new_path.isSome then
    ParseResult.err ("patch contains duplicate new path at line " ++ toString line_num)
  else
    match parse_header_path_buf s line_num with
    | ParseResult.err e => ParseResult.err e
    | ParseResult.ok path => ParseResult.ok { p with new_path := some path }

/-- The old-side path established for the binary short form
(patch_parse.c line 122): the `"--- "` path when recorded, else the
header-derived fallback. -/
def binary_old_path (p : PatchParsed) : Option String :=
  match p.old_path with
  | some o => some o
  | none => p.header_old_path

/-- The new-side path established for the binary short form
(patch_parse.c line 123). -/
def binary_new_path (p : PatchParsed) : Option String :=
  match p.new_path with
  | some n => some n
  | none => p.header_new_path

/-- The exact line the binary short form must present, when the per-side paths
are established: `"Binary files <old> and <new> differ"`, with `/dev/null`
substituted for the old side of an added delta and the new side of a deleted
delta (patch_parse.c lines 128–136); `none` when either side has no path. -/
def binary_expected_line (p : PatchParsed) : Option String :=
  match binary_old_path p, binary_new_path p with
  | some o, some n =>
    some ("Binary files " ++ (if p.status = DeltaStatus.ADDED then "/dev/null" else o) ++
      " and " ++ (if p.status = DeltaStatus.DELETED then "/dev/null" else n) ++ " differ")
  | _, _ => none

/-- `parse_patch_binary_nodata` (patch_parse.c lines 122–137): fails with the
corrupt-binary-data error when either side has no established path, and matches
the current line against the expected `"Binary files ... differ"` rendering.
Modelled from the spec: the mismatch branch reports the same
corrupt-binary-data error (the message of the elided advance-failure branch is
taken from the spec's short-form rule). -/
def parse_patch_binary_nodata (p : PatchParsed) (line : String) (line_num : Nat) :
    ParseResult Unit :=
  match binary_expected_line p with
  | none => ParseResult.err ("corrupt binary data without paths at line " ++ toString line_num)
  | some e =>
    if line = e then ParseResult.ok ()
    else ParseResult.err ("corrupt binary data without paths at line " ++ toString line_num)

/-- The per-side prefixed-path selection of `check_filenames`
(patch_parse.c line 141): the `"--- "` path wins over the header-derived path
unless the delta is an addition. -/
def check_filenames_prefixed_old (p : PatchParsed) : Option String :=
  if p.status ≠ DeltaStatus.ADDED ∧ p.old_path.isSome then p.old_path
  else p.header_old_path

/-- The per-side prefixed-path selection of `check_filenames`
(patch_parse.c line 142): the `"+++ "` path wins over the header-derived path
unless the delta is a deletion. -/
def check_filenames_prefixed_new (p : PatchParsed) : Option String :=
  if p.status ≠ DeltaStatus.DELETED ∧ p.new_path.isSome then p.new_path
  else p.header_new_path

/-- Modelled from the spec: the final old-side delta path assignment of
`check_filenames`. Only the tail of the else-chain is present in src
(patch_parse.c lines 145–147), the branch preferring the explicit rename/copy
path being elided, so its guard follows the spec's rule: the rename/copy path
is used when present and the add flag is not set, else the header-declared
selection. Prefix stripping (`check_prefix`) is elided from src and not
modelled. -/
def check_filenames_old_file_path (p : PatchParsed) : Option String :=
  if p.rename_old_path.isSome ∧ p.status ≠ DeltaStatus.ADDED then p.rename_old_path
  else check_filenames_prefixed_old p

/-- Modelled from the spec: the final new-side delta path assignment of
`check_filenames` (else-chain tail at patch_parse.c lines 148–150), the
rename/copy-preference guard following the spec's rule with the delete flag. -/
def check_filenames_new_file_path (p : PatchParsed) : Option String :=
  if p.rename_new_path.isSome ∧ p.status ≠ DeltaStatus.DELETED then p.rename_new_path
  else check_filenames_prefixed_new p

/-- Modelled from the spec: the per-line decoded length of a radix-85 data row,
derived from the leading count byte — `'A'..'Z'` encode 1–26 and `'a'..'z'`
encode 27–52; any other byte yields 0 (the derivation is elided from src, which
retains only the bound check at patch_parse.c line 119). -/
def binary_line_decoded_len (c : Char) : Nat :=
  if 'A' ≤ c ∧ c ≤ 'Z' then c.toNat - 'A'.toNat + 1
  else if 'a' ≤ c ∧ c ≤ 'z' then c.toNat - 'a'.toNat + 27
  else 0

/-- Modelled from the spec: the number of encoded characters a radix-85 row
carries for a given decoded length — full 5-character groups of 4 decoded
bytes each. -/
def binary_line_encoded_len (decoded_len : Nat) : Nat :=
  (decoded_len / 4 + (if decoded_len % 4 ≠ 0 then 1 else 0)) * 5

/-- One radix-85 data row of `parse_patch_binary_side`: the bound check is
patch_parse.c line 119 — the encoded length must be nonzero, the line nonempty,
and the encoded length at most the line length minus one (the count byte) —
and only a row passing it hands its characters (those after the count byte)
to the base85 decoder. The error message and the handing of exactly
`encoded_len` characters are modelled from the spec. -/
def parse_binary_row (line : List Char) (line_num : Nat) : ParseResult (List Char) :=
  if binary_line_encoded_len (binary_line_decoded_len (line.headD ' ')) = 0 ∨
      line.length = 0 ∨
      binary_line_encoded_len (binary_line_decoded_len (line.headD ' ')) > line.length - 1 then
    ParseResult.err ("truncated binary data at line " ++ toString line_num)
  else
    ParseResult.ok ((line.drop 1).take
      (binary_line_encoded_len (binary_line_decoded_len (line.headD ' '))))

/-- Thread error state set by `git_error_set` (class and message). -/
structure GitErrorState where
  klass : String
  message : String
  deriving DecidableEq, Repr

/-- The entries snapshot held by a config snapshot backend
(`config_snapshot_backend` of config_snapshot.c); the mutex and the parent
vtable are not modelled (parsing is single-threaded per the spec). -/
structure GitConfigBackend where
  readonly : Bool
  entries : List (String × String)
  deriving DecidableEq, Repr

/-- `config_error_readonly` (config_snapshot.c lines 19–23): sets the fixed
read-only error and returns −1. -/
def config_error_readonly : Int × GitErrorState :=
  (-1, ⟨"GIT_ERROR_CONFIG", "this backend is read-only"⟩)

/-- `config_snapshot_set` (config_snapshot.c lines 78–85): ignores every
argument, leaves the backend unchanged and reports the read-only error. -/
def config_snapshot_set (cfg : GitConfigBackend) (name value : String) :
    GitConfigBackend × Int × GitErrorState :=
  (cfg, config_error_readonly)

/-- `config_snapshot_set_multivar` (config_snapshot.c lines 87–96). -/
def config_snapshot_set_multivar (cfg : GitConfigBackend) (name regexp value : String) :
    GitConfigBackend × Int × GitErrorState :=
  (cfg, config_error_readonly)

/-- `config_snapshot_delete_multivar` (config_snapshot.c lines 98–105). -/
def config_snapshot_delete_multivar (cfg : GitConfigBackend) (name regexp : String) :
    GitConfigBackend × Int × GitErrorState :=
  (cfg, config_error_readonly)

/-- `config_snapshot_delete` (config_snapshot.c lines 107–113). -/
def config_snapshot_delete (cfg : GitConfigBackend) (name : String) :
    GitConfigBackend × Int × GitErrorState :=
  (cfg, config_error_readonly)

/-- `config_snapshot_lock` (config_snapshot.c lines 115–120). -/
def config_snapshot_lock (cfg : GitConfigBackend) :
    GitConfigBackend × Int × GitErrorState :=
  (cfg, config_error_readonly)

/-- `config_snapshot_unlock` (config_snapshot.c lines 122–128): ignores the
backend and the `success` argument and reports the read-only error. -/
def config_snapshot_unlock (cfg : GitConfigBackend) (success : Int) :
    GitConfigBackend × Int × GitErrorState :=
  (cfg, config_error_readonly)

theorem countOldSide_append (ls : List DiffLine) (l : DiffLine) :
    countOldSide (ls ++ [l]) = countOldSide ls + (if isOldSideOrigin l.origin then 1 else 0) := by
  cases hp : isOldSideOrigin l.origin <;>
    simp [countOldSide, List.filter_append, List.filter, hp]

theorem countNewSide_append (ls : List DiffLine) (l : DiffLine) :
    countNewSide (ls ++ [l]) = countNewSide ls + (if isNewSideOrigin l.origin then 1 else 0) := by
  cases hp : isNewSideOrigin l.origin <;>
    simp [countNewSide, List.filter_append, List.filter, hp]

theorem isOldSideOrigin_eof (o : Int) : isOldSideOrigin (eof_for_origin o) = false := by
  unfold eof_for_origin
  split
  · decide
  · split <;> decide

theorem isNewSideOrigin_eof (o : Int) : isNewSideOrigin (eof_for_origin o) = false := by
  unfold eof_for_origin
  split
  · decide
  · split <;> decide

theorem parse_hunk_body_loop_counts (h : GitPatchHunk) :
    ∀ (input : List (List Char)) (oldlines newlines last_origin : Int)
      (acc : List DiffLine) (ln : Nat) (st : HunkLoopOut),
      parse_hunk_body_loop h oldlines newlines last_origin acc input ln = ParseResult.ok st →
      countOldSide st.lines + st.oldlines = countOldSide acc + oldlines ∧
      countNewSide st.lines + st.newlines = countNewSide acc + newlines := by
  intro input
  induction input with
  | nil =>
    intro oldlines newlines last_origin acc ln st hok
    rw [parse_hunk_body_loop] at hok
    injection hok with h1
    subst h1
    simp
  | cons line rest ih =>
    intro oldlines newlines last_origin acc ln st hok
    rw [parse_hunk_body_loop] at hok
    split at hok
    · injection hok with h1; subst h1; simp
    · split at hok
      · injection hok with h1; subst h1; simp
      · split at hok
        · exact absurd hok (by simp)
        · split at hok
          · exact absurd hok (by simp)
          · split at hok
            · obtain ⟨h1, h2⟩ := ih _ _ _ _ _ _ hok
              rw [countOldSide_append] at h1
              rw [countNewSide_append] at h2
              simp only [isOldSideOrigin, isNewSideOrigin, GIT_DIFF_LINE_CONTEXT,
                GIT_DIFF_LINE_DELETION, GIT_DIFF_LINE_ADDITION] at h1 h2
              norm_num at h1 h2
              constructor <;> omega
            · split at hok
              · obtain ⟨h1, h2⟩ := ih _ _ _ _ _ _ hok
                rw [countOldSide_append] at h1
                rw [countNewSide_append] at h2
                simp only [isOldSideOrigin, isNewSideOrigin, GIT_DIFF_LINE_CONTEXT,
                  GIT_DIFF_LINE_DELETION, GIT_DIFF_LINE_ADDITION] at h1 h2
                norm_num at h1 h2
                constructor <;> omega
              · split at hok
                · obtain ⟨h1, h2⟩ := ih _ _ _ _ _ _ hok
                  rw [countOldSide_append] at h1
                  rw [countNewSide_append] at h2
                  simp only [isOldSideOrigin, isNewSideOrigin, GIT_DIFF_LINE_CONTEXT,
                    GIT_DIFF_LINE_DELETION, GIT_DIFF_LINE_ADDITION] at h1 h2
                  norm_num at h1 h2
                  constructor <;> omega
                · split at hok
                  · obtain ⟨h1, h2⟩ := ih _ _ _ _ _ _ hok
                    rw [countOldSide_append] at h1
                    rw [countNewSide_append] at h2
                    rw [isOldSideOrigin_eof] at h1
                    rw [isNewSideOrigin_eof] at h2
                    norm_num at h1 h2
                    constructor <;> omega
                  · exact absurd hok (by simp)

/-- C1: for every hunk, the number of body lines consumed with origin CONTEXT
or DELETION equals the header-declared `old_lines` and the number with origin
CONTEXT or ADDITION equals `new_lines` whenever `parse_hunk_body` succeeds; and
when the input ends while either remaining counter is still nonzero, the parse
fails with an error instead of returning a hunk with a count mismatch. -/
theorem parse_hunk_body_line_counts (h : GitPatchHunk) (input : List (List Char)) (ln : Nat) :
    (∀ st, parse_hunk_body h input ln = ParseResult.ok st →
        countOldSide st.lines = h.old_lines ∧ countNewSide st.lines = h.new_lines) ∧
    (∀ st2, parse_hunk_body_loop h h.old_lines h.new_lines 0 [] input ln = ParseResult.ok st2 →
        st2.rest = [] → ¬(st2.oldlines = 0 ∧ st2.newlines = 0) →
        ∃ e, parse_hunk_body h input ln = ParseResult.err e) := by
  have hc0 : countOldSide ([] : List DiffLine) = 0 := by decide
  have hc0n : countNewSide ([] : List DiffLine) = 0 := by decide
  constructor
  · intro st hok
    unfold parse_hunk_body at hok
    cases hloop : parse_hunk_body_loop h h.old_lines h.new_lines 0 [] input ln with
    | err e => rw [hloop] at hok; exact absurd hok (by simp)
    | ok st2 =>
      rw [hloop] at hok
      obtain ⟨c1, c2⟩ := parse_hunk_body_loop_counts h input h.old_lines h.new_lines 0 [] ln st2 hloop
      rw [hc0] at c1
      rw [hc0n] at c2
      split at hok
      · rename_i e heq
        exact absurd heq (by simp)
      · rename_i st3 heq
        injection heq with heq2
        subst heq2
        split at hok
        · exact absurd hok (by simp)
        · rename_i hz
          rw [Decidable.not_not] at hz
          obtain ⟨hz1, hz2⟩ := hz
          rw [hz1] at c1
          rw [hz2] at c2
          split at hok
          · injection hok with h1
            subst h1
            constructor
            · simp only []
              omega
            · simp only []
              omega
          · rename_i line rest2 hrest2
            split at hok
            · injection hok with h1
              subst h1
              constructor
              · simp only []
                rw [countOldSide_append, isOldSideOrigin_eof]
                simp only [Bool.false_eq_true, if_false]
                omega
              · simp only []
                rw [countNewSide_append, isNewSideOrigin_eof]
                simp only [Bool.false_eq_true, if_false]
                omega
            · injection hok with h1
              subst h1
              constructor
              · simp only []
                omega
              · simp only []
                omega
  · intro st2 hloop hrest hnz
    refine ⟨"invalid patch hunk, expected " ++ toString h.old_lines ++
      " old lines and " ++ toString h.new_lines ++ " new lines", ?_⟩
    unfold parse_hunk_body
    rw [hloop]
    exact if_pos hnz

/-- Witness for C1 at concrete inputs: a hunk declaring 2 old and 1 new lines
parsed from a context plus a deletion line, and a hunk declaring 2 and 2 whose
input ends after one context line. -/
theorem parse_hunk_body_line_counts_witness :
    (countOldSide [⟨['a', '\n'], 32, 1, 1⟩, ⟨['b', '\n'], 45, 2, -1⟩] = 2 ∧
     countNewSide [⟨['a', '\n'], 32, 1, 1⟩, ⟨['b', '\n'], 45, 2, -1⟩] = 1) ∧
    (∃ e, parse_hunk_body ⟨1, 2, 1, 2⟩ [[' ', 'a', '\n']] 1 = ParseResult.err e) := by
  constructor
  · exact (parse_hunk_body_line_counts ⟨1, 2, 1, 1⟩ [[' ', 'a', '\n'], ['-', 'b', '\n']] 1).1
      ⟨[⟨['a', '\n'], 32, 1, 1⟩, ⟨['b', '\n'], 45, 2, -1⟩], [], 3, none⟩ (by decide)
  · exact (parse_hunk_body_line_counts ⟨1, 2, 1, 2⟩ [[' ', 'a', '\n']] 1).2
      ⟨[⟨['a', '\n'], 32, 1, 1⟩], 1, 1, 32, [], 2⟩ (by decide) rfl (by decide)

theorem git_add_int_overflow_some (a b v : Int) (hv : git_add_int_overflow a b = some v) :
    v = a + b ∧ INT_MIN ≤ v ∧ v ≤ INT_MAX := by
  unfold git_add_int_overflow at hv
  split at hv
  · exact absurd hv (by simp)
  · rename_i hc
    push_neg at hc
    injection hv with h1
    subst h1
    exact ⟨rfl, hc.1, hc.2⟩

theorem git_sub_int_overflow_some (a b v : Int) (hv : git_sub_int_overflow a b = some v) :
    v = a - b ∧ INT_MIN ≤ v ∧ v ≤ INT_MAX := by
  unfold git_sub_int_overflow at hv
  split at hv
  · exact absurd hv (by simp)
  · rename_i hc
    push_neg at hc
    injection hv with h1
    subst h1
    exact ⟨rfl, hc.1, hc.2⟩

/-- C2 counterexample: the overflow detection in the hunk-body line-number
computation is not performed over signed 64-bit arithmetic. The hunk header
`old_start = 2147483647, old_lines = 1` makes `parse_hunk_body` fail with the
"unrepresentable line count" error although every addition and subtraction of
that computation is exactly representable in signed 64-bit arithmetic (the
spec-worded 64-bit checks all succeed). -/
theorem hunk_lineno_overflow_not_int64 :
    parse_hunk_body ⟨2147483647, 1, 1, 1⟩ [[' ', 'x', '\n']] 1 =
      ParseResult.err "unrepresentable line count at line 1" ∧
    add_int64_overflow_spec 2147483647 1 = some 2147483648 ∧
    sub_int64_overflow_spec 2147483648 1 = some 2147483647 ∧
    add_int64_overflow_spec 1 1 = some 2 ∧
    sub_int64_overflow_spec 2 1 = some 1 := by
  exact ⟨by decide, by decide, by decide, by decide, by decide⟩

/-- C2 (amended): the running line numbers are computed from the header fields
with explicit overflow detection over the C `int` type (signed 32-bit range),
not 64-bit: a hunk whose header values overflow that computation fails with
the distinct error "unrepresentable line count at line N" as soon as a body
line is consumed, and a computation that passes the check yields exactly the
mathematical values `old_start + old_lines - oldlines` and
`new_start + new_lines - newlines`, both within the `int` range — never a
wrapped or otherwise incorrect line number. -/
theorem hunk_lineno_overflow_int_width :
    (∀ (h : GitPatchHunk) (line : List Char) (rest : List (List Char)) (ln : Nat),
        ¬(h.old_lines = 0 ∧ h.new_lines = 0) →
        listStartsWith line hunkHeaderStart = false →
        compute_hunk_linenos h h.old_lines h.new_lines = none →
        parse_hunk_body h (line :: rest) ln =
          ParseResult.err ("unrepresentable line count at line " ++ toString ln)) ∧
    (∀ (h : GitPatchHunk) (ol nl o n : Int),
        compute_hunk_linenos h ol nl = some (o, n) →
        o = h.old_start + h.old_lines - ol ∧ n = h.new_start + h.new_lines - nl ∧
        INT_MIN ≤ o ∧ o ≤ INT_MAX ∧ INT_MIN ≤ n ∧ n ≤ INT_MAX) := by
  constructor
  · intro h line rest ln hnz hns hovf
    have hns2 : ¬(listStartsWith line hunkHeaderStart = true) := by simp [hns]
    have hl : parse_hunk_body_loop h h.old_lines h.new_lines 0 [] (line :: rest) ln =
        ParseResult.err ("unrepresentable line count at line " ++ toString ln) := by
      rw [parse_hunk_body_loop]
      rw [if_neg hnz, if_neg hns2, hovf]
    unfold parse_hunk_body
    rw [hl]
  · intro h ol nl o n hsome
    unfold compute_hunk_linenos at hsome
    split at hsome
    · exact absurd hsome (by simp)
    · rename_i t1 ht1
      split at hsome
      · exact absurd hsome (by simp)
      · rename_i v1 hv1
        split at hsome
        · exact absurd hsome (by simp)
        · rename_i t2 ht2
          split at hsome
          · exact absurd hsome (by simp)
          · rename_i v2 hv2
            injection hsome with hp
            injection hp with e1 e2
            subst e1
            subst e2
            obtain ⟨a1, a2, a3⟩ := git_add_int_overflow_some _ _ _ ht1
            obtain ⟨b1, b2, b3⟩ := git_sub_int_overflow_some _ _ _ hv1
            obtain ⟨a4, a5, a6⟩ := git_add_int_overflow_some _ _ _ ht2
            obtain ⟨b4, b5, b6⟩ := git_sub_int_overflow_some _ _ _ hv2
            refine ⟨?_, ?_, b2, b3, b5, b6⟩
            · omega
            · omega

/-- Witness for C2 (amended) at concrete inputs: the overflowing header
`old_start = 2147483647, old_lines = 1` fails on its first body line, and the
in-range computation for header (1,2,3,4) with counters (2,4) yields the exact
line numbers (1,3). -/
theorem hunk_lineno_overflow_int_width_witness :
    parse_hunk_body ⟨2147483647, 1, 1, 1⟩ [[' ', 'x', '\n']] 3 =
      ParseResult.err ("unrepresentable line count at line " ++ toString 3) ∧
    ((1 : Int) = 1 + 2 - 2 ∧ (3 : Int) = 3 + 4 - 4 ∧
      INT_MIN ≤ (1 : Int) ∧ (1 : Int) ≤ INT_MAX ∧ INT_MIN ≤ (3 : Int) ∧ (3 : Int) ≤ INT_MAX) := by
  constructor
  · exact hunk_lineno_overflow_int_width.1 ⟨2147483647, 1, 1, 1⟩ [' ', 'x', '\n'] [] 3
      (by decide) (by decide) (by decide)
  · exact hunk_lineno_overflow_int_width.2 ⟨1, 2, 3, 4⟩ 2 4 1 3 (by decide)

/-- C3: a hunk-body line whose leading character is a backslash, encountered
when the old-side remaining counter is zero, is emitted with both line numbers
−1 and origin derived from the origin of the most recently emitted line by the
fixed mapping ADDITION→ADD_EOFNL, DELETION→DEL_EOFNL, otherwise CONTEXT_EOFNL;
in particular a marker following an addition line yields origin ADD_EOFNL. -/
theorem hunk_body_eofnl_marker (h : GitPatchHunk) (newlines last_origin : Int)
    (acc : List DiffLine) (line : List Char) (rest : List (List Char)) (ln : Nat)
    (o n : Int)
    (hhead : line.head? = some '\\')
    (hnew : newlines ≠ 0)
    (hns : listStartsWith line hunkHeaderStart = false)
    (hov : compute_hunk_linenos h 0 newlines = some (o, n)) :
    parse_hunk_body_loop h 0 newlines last_origin acc (line :: rest) ln =
      parse_hunk_body_loop h 0 newlines (eof_for_origin last_origin)
        (acc ++ [⟨line, eof_for_origin last_origin, -1, -1⟩]) rest (ln + 1) ∧
    eof_for_origin GIT_DIFF_LINE_ADDITION = GIT_DIFF_LINE_ADD_EOFNL ∧
    eof_for_origin GIT_DIFF_LINE_DELETION = GIT_DIFF_LINE_DEL_EOFNL ∧
    (∀ o2 : Int, o2 ≠ GIT_DIFF_LINE_ADDITION → o2 ≠ GIT_DIFF_LINE_DELETION →
      eof_for_origin o2 = GIT_DIFF_LINE_CONTEXT_EOFNL) := by
  have hns2 : ¬(listStartsWith line hunkHeaderStart = true) := by simp [hns]
  refine ⟨?_, by decide, by decide, ?_⟩
  · rw [parse_hunk_body_loop]
    rw [if_neg (by simp [hnew]), if_neg hns2, hov, hhead]
    rfl
  · intro o2 h1 h2
    unfold eof_for_origin
    rw [if_neg h1, if_neg h2]

/-- Witness for C3 at a concrete loop state: after an addition line
(`last_origin = ADDITION`), the marker line is emitted with origin
`eof_for_origin ADDITION` and both line numbers −1. -/
theorem hunk_body_eofnl_marker_witness :
    parse_hunk_body_loop ⟨0, 0, 1, 2⟩ 0 1 GIT_DIFF_LINE_ADDITION
        [⟨['x', '\n'], 43, -1, 1⟩] [['\\', ' ', 'n', 'l', '\n'], ['+', 'y', '\n']] 2 =
      parse_hunk_body_loop ⟨0, 0, 1, 2⟩ 0 1 (eof_for_origin GIT_DIFF_LINE_ADDITION)
        ([⟨['x', '\n'], 43, -1, 1⟩] ++
          [⟨['\\', ' ', 'n', 'l', '\n'], eof_for_origin GIT_DIFF_LINE_ADDITION, -1, -1⟩])
        [['+', 'y', '\n']] (2 + 1) ∧
    eof_for_origin GIT_DIFF_LINE_ADDITION = GIT_DIFF_LINE_ADD_EOFNL := by
  constructor
  · exact (hunk_body_eofnl_marker ⟨0, 0, 1, 2⟩ 1 GIT_DIFF_LINE_ADDITION
      [⟨['x', '\n'], 43, -1, 1⟩] ['\\', ' ', 'n', 'l', '\n'] [['+', 'y', '\n']] 2 0 2
      (by decide) (by decide) (by decide) (by decide)).1
  · exact (hunk_body_eofnl_marker ⟨0, 0, 1, 2⟩ 1 GIT_DIFF_LINE_ADDITION
      [⟨['x', '\n'], 43, -1, 1⟩] ['\\', ' ', 'n', 'l', '\n'] [['+', 'y', '\n']] 2 0 2
      (by decide) (by decide) (by decide) (by decide)).2.1

/-- C7: a hunk body whose trailing "no newline" marker line lacks its own
trailing newline still parses successfully — the condition is recorded as the
"last line has no trailing newline" diagnostic on the successful result rather
than aborting the parse. -/
theorem trailing_newline_diagnostic_nonfatal (h : GitPatchHunk) (input : List (List Char))
    (ln : Nat) (lines : List DiffLine) (lo : Int) (marker : List Char)
    (rest : List (List Char)) (ln2 : Nat)
    (hloop : parse_hunk_body_loop h h.old_lines h.new_lines 0 [] input ln =
      ParseResult.ok ⟨lines, 0, 0, lo, marker :: rest, ln2⟩)
    (hm : marker.take 2 = ['\\', ' '])
    (hnl : marker.getLast? ≠ some '\n') :
    parse_hunk_body h input ln =
      ParseResult.ok ⟨lines ++ [⟨marker, eof_for_origin lo, -1, -1⟩], rest, ln2 + 1,
        some "last line has no trailing newline"⟩ := by
  simp [parse_hunk_body, hloop, hm, hnl]

/-- Witness for C7 at a concrete input: the body of a 1/1 hunk whose marker
line `"\ No"` has no trailing newline parses successfully with the diagnostic
recorded. -/
theorem trailing_newline_diagnostic_nonfatal_witness :
    parse_hunk_body ⟨1, 1, 1, 1⟩ [[' ', 'a', '\n'], ['\\', ' ', 'N', 'o']] 1 =
      ParseResult.ok ⟨[⟨['a', '\n'], 32, 1, 1⟩] ++
          [⟨['\\', ' ', 'N', 'o'], eof_for_origin 32, -1, -1⟩], [], 2 + 1,
        some "last line has no trailing newline"⟩ :=
  trailing_newline_diagnostic_nonfatal ⟨1, 1, 1, 1⟩ [[' ', 'a', '\n'], ['\\', ' ', 'N', 'o']] 1
    [⟨['a', '\n'], 32, 1, 1⟩] 32 ['\\', ' ', 'N', 'o'] [] 2
    (by decide) (by decide) (by decide)

/-- C4: a second path declared for the same side of a file section is rejected —
the `"--- "` handler with the duplicate-old-path error and the `"+++ "` handler
with the duplicate-new-path error — each carrying the 1-based source line
number at which the duplicate was detected. -/
theorem duplicate_path_line_errors (p : PatchParsed) (s s2 : String) (ln ln2 : Nat)
    (q q2 : String) (h1 : p.old_path = some q) (h2 : p.new_path = some q2) :
    parse_header_git_oldpath p s ln =
      ParseResult.err ("patch contains duplicate old path at line " ++ toString ln) ∧
    parse_header_git_newpath p s2 ln2 =
      ParseResult.err ("patch contains duplicate new path at line " ++ toString ln2) := by
  constructor
  · unfold parse_header_git_oldpath
    rw [if_pos (by simp [h1])]
  · unfold parse_header_git_newpath
    rw [if_pos (by simp [h2])]

/-- Witness for C4: a file section that already recorded `a/x` and `b/y` rejects
a second path on either side, naming line 7 and line 9 respectively. -/
theorem duplicate_path_line_errors_witness :
    parse_header_git_oldpath
        ⟨some "a/x", some "b/y", none, none, none, none, DeltaStatus.MODIFIED⟩ "a/z" 7 =
      ParseResult.err ("patch contains duplicate old path at line " ++ toString 7) ∧
    parse_header_git_newpath
        ⟨some "a/x", some "b/y", none, none, none, none, DeltaStatus.MODIFIED⟩ "b/z" 9 =
      ParseResult.err ("patch contains duplicate new path at line " ++ toString 9) :=
  duplicate_path_line_errors
    ⟨some "a/x", some "b/y", none, none, none, none, DeltaStatus.MODIFIED⟩
    "a/z" "b/z" 7 9 "a/x" "b/y" rfl rfl

/-- C5: the binary short form `Binary files <old> and <new> differ` must
exactly match the paths established from the file header, with `/dev/null`
substituted for the old side of an added delta and the new side of a deleted
delta; a mismatching line, or the absence of established paths, fails with the
corrupt-binary-data-without-paths error, and a matching line succeeds. -/
theorem binary_nodata_path_check (p : PatchParsed) (line : String) (ln : Nat) :
    (binary_expected_line p = none →
      parse_patch_binary_nodata p line ln =
        ParseResult.err ("corrupt binary data without paths at line " ++ toString ln)) ∧
    (∀ e, binary_expected_line p = some e → line ≠ e →
      parse_patch_binary_nodata p line ln =
        ParseResult.err ("corrupt binary data without paths at line " ++ toString ln)) ∧
    (∀ e, binary_expected_line p = some e → line = e →
      parse_patch_binary_nodata p line ln = ParseResult.ok ()) := by
  refine ⟨?_, ?_, ?_⟩
  · intro hn
    unfold parse_patch_binary_nodata
    rw [hn]
  · intro e he hne
    unfold parse_patch_binary_nodata
    rw [he]
    exact if_neg hne
  · intro e he heq
    unfold parse_patch_binary_nodata
    rw [he]
    exact if_pos heq

/-- Witness for C5: a header that declared `a/x.bin` / `b/z.bin` rejects the
line naming `b/y.bin` with the corrupt-binary error, and a section with no
established paths is rejected outright. -/
theorem binary_nodata_path_check_witness :
    parse_patch_binary_nodata
        ⟨some "a/x.bin", some "b/z.bin", none, none, none, none, DeltaStatus.MODIFIED⟩
        "Binary files a/x.bin and b/y.bin differ" 5 =
      ParseResult.err ("corrupt binary data without paths at line " ++ toString 5) ∧
    parse_patch_binary_nodata ⟨none, none, none, none, none, none, DeltaStatus.MODIFIED⟩
        "Binary files a and b differ" 3 =
      ParseResult.err ("corrupt binary data without paths at line " ++ toString 3) := by
  constructor
  · exact (binary_nodata_path_check
      ⟨some "a/x.bin", some "b/z.bin", none, none, none, none, DeltaStatus.MODIFIED⟩
      "Binary files a/x.bin and b/y.bin differ" 5).2.1
      "Binary files a/x.bin and b/z.bin differ" (by decide) (by decide)
  · exact (binary_nodata_path_check ⟨none, none, none, none, none, none, DeltaStatus.MODIFIED⟩
      "Binary files a and b differ" 3).1 rfl

/-- C6: when a side has both a header-declared path selection and an explicit
rename/copy path, the rename/copy path takes precedence and becomes the delta's
path for that side, except when the add flag (old side) or delete flag (new
side) is set, in which case the header-declared selection is used. -/
theorem check_filenames_path_precedence (p : PatchParsed) (r rn hp hpn : String)
    (hro : p.rename_old_path = some r) (hrn2 : p.rename_new_path = some rn)
    (hpo : check_filenames_prefixed_old p = some hp)
    (hpn2 : check_filenames_prefixed_new p = some hpn) :
    ((p.status ≠ DeltaStatus.ADDED → check_filenames_old_file_path p = some r) ∧
     (p.status = DeltaStatus.ADDED → check_filenames_old_file_path p = some hp)) ∧
    ((p.status ≠ DeltaStatus.DELETED → check_filenames_new_file_path p = some rn) ∧
     (p.status = DeltaStatus.DELETED → check_filenames_new_file_path p = some hpn)) := by
  refine ⟨⟨?_, ?_⟩, ⟨?_, ?_⟩⟩
  · intro hs
    unfold check_filenames_old_file_path
    rw [if_pos ⟨by simp [hro], hs⟩, hro]
  · intro hs
    unfold check_filenames_old_file_path
    rw [if_neg (by simp [hs]), hpo]
  · intro hs
    unfold check_filenames_new_file_path
    rw [if_pos ⟨by simp [hrn2], hs⟩, hrn2]
  · intro hs
    unfold check_filenames_new_file_path
    rw [if_neg (by simp [hs]), hpn2]

/-- Witness for C6: a renamed delta with both header-declared and rename paths
on both sides resolves each side to the rename path. -/
theorem check_filenames_path_precedence_witness :
    check_filenames_old_file_path
        ⟨some "a/old", some "b/new", some "a/hold", some "b/hnew",
          some "r/old", some "r/new", DeltaStatus.RENAMED⟩ = some "r/old" ∧
    check_filenames_new_file_path
        ⟨some "a/old", some "b/new", some "a/hold", some "b/hnew",
          some "r/old", some "r/new", DeltaStatus.RENAMED⟩ = some "r/new" := by
  constructor
  · exact (check_filenames_path_precedence
      ⟨some "a/old", some "b/new", some "a/hold", some "b/hnew",
        some "r/old", some "r/new", DeltaStatus.RENAMED⟩
      "r/old" "r/new" "a/old" "b/new" rfl rfl (by decide) (by decide)).1.1 (by decide)
  · exact (check_filenames_path_precedence
      ⟨some "a/old", some "b/new", some "a/hold", some "b/hnew",
        some "r/old", some "r/new", DeltaStatus.RENAMED⟩
      "r/old" "r/new" "a/old" "b/new" rfl rfl (by decide) (by decide)).2.1 (by decide)

/-- C8: every mutation operation of the config snapshot backend — set,
set_multivar, delete, delete_multivar and lock — performs no state change and
returns the same fixed read-only-backend error, whatever its arguments. -/
theorem config_snapshot_mutations_readonly (cfg : GitConfigBackend)
    (name regexp value : String) :
    config_snapshot_set cfg name value =
      (cfg, -1, ⟨"GIT_ERROR_CONFIG", "this backend is read-only"⟩) ∧
    config_snapshot_set_multivar cfg name regexp value =
      (cfg, -1, ⟨"GIT_ERROR_CONFIG", "this backend is read-only"⟩) ∧
    config_snapshot_delete cfg name =
      (cfg, -1, ⟨"GIT_ERROR_CONFIG", "this backend is read-only"⟩) ∧
    config_snapshot_delete_multivar cfg name regexp =
      (cfg, -1, ⟨"GIT_ERROR_CONFIG", "this backend is read-only"⟩) ∧
    config_snapshot_lock cfg =
      (cfg, -1, ⟨"GIT_ERROR_CONFIG", "this backend is read-only"⟩) :=
  ⟨rfl, rfl, rfl, rfl, rfl⟩

/-- C10: the unlock operation of the config snapshot backend, for every backend
value and every value of its `success` argument, also returns the fixed
read-only-backend error and leaves the snapshot unchanged. -/
theorem config_snapshot_unlock_readonly (cfg : GitConfigBackend) (success : Int) :
    config_snapshot_unlock cfg success =
      (cfg, -1, ⟨"GIT_ERROR_CONFIG", "this backend is read-only"⟩) :=
  rfl

/-- C9: a radix-85 data row is handed to the decoder only when the encoded
character count derived from its leading count byte is nonzero and at most the
row length minus one; a row violating that bound is rejected as a parse error
before decoding, and on success the decoder receives exactly the characters
after the count byte, never reading past the end of the row. -/
theorem binary_row_bounds_check (line : List Char) (ln : Nat) :
    (∀ out, parse_binary_row line ln = ParseResult.ok out →
      binary_line_encoded_len (binary_line_decoded_len (line.headD ' ')) ≠ 0 ∧
      binary_line_encoded_len (binary_line_decoded_len (line.headD ' ')) ≤ line.length - 1 ∧
      out = (line.drop 1).take
        (binary_line_encoded_len (binary_line_decoded_len (line.headD ' '))) ∧
      out.length + 1 ≤ line.length) ∧
    ((binary_line_encoded_len (binary_line_decoded_len (line.headD ' ')) = 0 ∨
      line.length = 0 ∨
      binary_line_encoded_len (binary_line_decoded_len (line.headD ' ')) > line.length - 1) →
      parse_binary_row line ln =
        ParseResult.err ("truncated binary data at line " ++ toString ln)) := by
  constructor
  · intro out hok
    unfold parse_binary_row at hok
    split at hok
    · exact absurd hok (by simp)
    · rename_i hcond
      push_neg at hcond
      obtain ⟨hel, hlen, hle⟩ := hcond
      injection hok with h1
      refine ⟨hel, hle, h1.symm, ?_⟩
      subst h1
      have ht := List.length_take
        (binary_line_encoded_len (binary_line_decoded_len (line.headD ' '))) (line.drop 1)
      have hd := List.length_drop 1 line
      omega
  · intro hcond
    unfold parse_binary_row
    rw [if_pos hcond]

/-- Witness for C9: the row `"Babcde"` (count byte `'B'`, so 2 decoded and 5
encoded characters) passes the bound and hands exactly `"abcde"` to the
decoder, while the truncated row `"Ba"` is rejected. -/
theorem binary_row_bounds_check_witness :
    (binary_line_encoded_len (binary_line_decoded_len
        (['B', 'a', 'b', 'c', 'd', 'e'].headD ' ')) ≠ 0 ∧
      binary_line_encoded_len (binary_line_decoded_len
        (['B', 'a', 'b', 'c', 'd', 'e'].headD ' ')) ≤ ['B', 'a', 'b', 'c', 'd', 'e'].length - 1 ∧
      ['a', 'b', 'c', 'd', 'e'] = (['B', 'a', 'b', 'c', 'd', 'e'].drop 1).take
        (binary_line_encoded_len (binary_line_decoded_len
          (['B', 'a', 'b', 'c', 'd', 'e'].headD ' '))) ∧
      (['a', 'b', 'c', 'd', 'e'] : List Char).length + 1 ≤
        ['B', 'a', 'b', 'c', 'd', 'e'].length) ∧
    parse_binary_row ['B', 'a'] 4 =
      ParseResult.err ("truncated binary data at line " ++ toString 4) := by
  constructor
  · exact (binary_row_bounds_check ['B', 'a', 'b', 'c', 'd', 'e'] 2).1
      ['a', 'b', 'c', 'd', 'e'] (by decide)
  · exact (binary_row_bounds_check ['B', 'a'] 4).2 (by decide)
